import Mathlib

/-!
Verification of the client/server simulator core (Go sources) against its
specification. Go float64 values are modelled as rationals, Go int64 values as
integers with explicit truncating division where the sign can matter, and Go
slices as lists. Side effects (metric counters, logging) are reflected in the
return values of the embedded functions.
-/

/-! ## Curve evaluator (internal/simulation/common.go, behaviorpoint.go) -/

/-- The kind of a behavior curve control point, from behaviorpoint.go. -/
inductive BehaviorPointType where
  | Curve
  | Break
deriving DecidableEq, Repr

/-- A control point of a behavior curve, from behaviorpoint.go. The Go field
named Type is renamed to kind because Type is reserved in Lean. -/
structure BehaviorPoint where
  X : ℚ
  Y : ℚ
  kind : BehaviorPointType
deriving DecidableEq, Repr

/-- Default point used for out-of-range list indexing in the embedding; the Go
code never actually reads out of range on the paths modelled here. -/
def defaultPoint : BehaviorPoint := ⟨0, 0, BehaviorPointType.Curve⟩

/-- Embedding of the Go helper sign: -1, 0 or 1 according to the sign of x. -/
def sign (x : ℚ) : Int :=
  if x > 0 then 1 else if x < 0 then -1 else 0

/-- Embedding of the Go helper cubicHermite. -/
def cubicHermite (y0 y1 m0 m1 t : ℚ) : ℚ :=
  let t2 := t * t
  let t3 := t2 * t
  (2*t3 - 3*t2 + 1)*y0 + (t3 - 2*t2 + t)*m0 + (-2*t3 + 3*t2)*y1 + (t3 - t2)*m1

/-- Helper for the segment search: walks the points from index i, returning the
first index whose point has nx < X, or the index one past the end. -/
def findSegIdxAux (nx : ℚ) : ℕ → List BehaviorPoint → ℕ
  | i, [] => i
  | i, p :: ps => if nx < p.X then i else findSegIdxAux nx (i + 1) ps

/-- The segment search loop of CurveFunction: the first index i with 1 ≤ i <
length and nx < points[i].X, or length if the loop never breaks. -/
def findSegIdx (points : List BehaviorPoint) (nx : ℚ) : ℕ :=
  findSegIdxAux nx 1 (points.drop 1)

/-- Embedding of CurveFunction from internal/simulation/common.go: normalize x,
clamp to the endpoint values, find the segment, then interpolate linearly when
either endpoint is a Break point and by monotone cubic Hermite otherwise. -/
def CurveFunction (minX maxX minY maxY : ℚ) (points : List BehaviorPoint) (x : ℚ) : ℚ :=
  if points.length < 2 then minY
  else
    let nx : ℚ := if maxX = minX then 0 else (x - minX) / (maxX - minX)
    let denormY : ℚ → ℚ := fun y => minY + y * (maxY - minY)
    let p0 := points.getD 0 defaultPoint
    let plast := points.getD (points.length - 1) defaultPoint
    if nx ≤ p0.X then denormY p0.Y
    else if plast.X ≤ nx then denormY plast.Y
    else
      let i := findSegIdx points nx
      let prev := points.getD (i - 1) defaultPoint
      let curr := points.getD i defaultPoint
      let dx := curr.X - prev.X
      if dx = 0 then denormY curr.Y
      else
        let t := (nx - prev.X) / dx
        if prev.kind = BehaviorPointType.Break ∨ curr.kind = BehaviorPointType.Break then
          denormY (prev.Y + t * (curr.Y - prev.Y))
        else
          let mPrev0 : ℚ :=
            if 2 ≤ i then
              (curr.Y - (points.getD (i - 2) defaultPoint).Y) /
                (curr.X - (points.getD (i - 2) defaultPoint).X)
            else (curr.Y - prev.Y) / (curr.X - prev.X)
          let mCurr0 : ℚ :=
            if i + 1 < points.length then
              ((points.getD (i + 1) defaultPoint).Y - prev.Y) /
                ((points.getD (i + 1) defaultPoint).X - prev.X)
            else (curr.Y - prev.Y) / (curr.X - prev.X)
          let mPrev : ℚ :=
            if curr.Y - prev.Y = 0 ∨ (mPrev0 ≠ 0 ∧ sign mPrev0 ≠ sign (curr.Y - prev.Y))
            then 0 else mPrev0
          let mCurr : ℚ :=
            if curr.Y - prev.Y = 0 ∨ (mCurr0 ≠ 0 ∧ sign mCurr0 ≠ sign (curr.Y - prev.Y))
            then 0 else mCurr0
          let y0 := cubicHermite prev.Y curr.Y (mPrev * dx) (mCurr * dx) t
          let y1 := if y0 < 0 then 0 else y0
          let y2 := if y1 > 1 then 1 else y1
          denormY y2

/-- Claim C6: the curve built over bounds (minX=0, maxX=1000, minY=0, maxY=1000)
from exactly the two break points (0,0) and (1,1) satisfies f(500) = 500
exactly, because a segment with a break endpoint is evaluated by linear
interpolation on y. -/
theorem curveFunction_break_midpoint :
    CurveFunction 0 1000 0 1000
      [⟨0, 0, BehaviorPointType.Break⟩, ⟨1, 1, BehaviorPointType.Break⟩] 500 = 500 := by
  have hidx : findSegIdx
      [(⟨0, 0, BehaviorPointType.Break⟩ : BehaviorPoint), ⟨1, 1, BehaviorPointType.Break⟩]
      (1 / 2 : ℚ) = 1 := by
    norm_num [findSegIdx, findSegIdxAux]
  norm_num [CurveFunction, hidx, List.getD]

/-! ## Metrics registry (Metrics.GetSnapshot, calculateSlidingWindowMetrics,
calculateNetworkLatencyMetrics). Durations and timestamps are int64
nanoseconds. -/

/-- A recorded duration with its timestamp, from the Go type timedDuration. -/
structure timedDuration where
  timestamp : Int
  duration : Int
deriving DecidableEq, Repr

/-- One second in nanoseconds, the sliding-window width. -/
def secondNs : Int := 1000000000

/-- The fields of Metrics that GetSnapshot and the two recompute helpers touch:
the three event vectors and the stored window statistics. -/
structure MetricsState where
  ResponseTimes : List timedDuration := []
  MinResponseTime : Int := 0
  MaxResponseTime : Int := 0
  AvgResponseTime : Int := 0
  P50ResponseTime : Int := 0
  P80ResponseTime : Int := 0
  P95ResponseTime : Int := 0
  RequestLatencies : List timedDuration := []
  ResponseLatencies : List timedDuration := []
  MinRequestLatency : Int := 0
  MaxRequestLatency : Int := 0
  MinResponseLatency : Int := 0
  MaxResponseLatency : Int := 0
deriving DecidableEq, Repr

/-- Percentile index as computed in Go: int(float64(n) * p) clamped to n-1. For
p = 0.5, 0.8, 0.95 and every window size the float computation equals the exact
floor, so the embedding uses exact natural division. -/
def percentileIdx (num den n : ℕ) : ℕ :=
  let i := num * n / den
  if i ≥ n then n - 1 else i

/-- Embedding of Metrics.calculateSlidingWindowMetrics: prune ResponseTimes to
events with timestamp ≥ now − 1s, then recompute min/max/avg and the sorted
percentiles, or zero every statistic when the pruned window is empty. -/
def calculateSlidingWindowMetrics (m : MetricsState) (now : Int) : MetricsState :=
  let cutoff := now - secondNs
  let filtered := m.ResponseTimes.filter (fun tr => decide (cutoff ≤ tr.timestamp))
  if filtered.isEmpty then
    { m with ResponseTimes := filtered, MinResponseTime := 0, MaxResponseTime := 0,
             AvgResponseTime := 0, P50ResponseTime := 0, P80ResponseTime := 0,
             P95ResponseTime := 0 }
  else
    let times := filtered.map (fun tr => tr.duration)
    let head := times.headD 0
    let mn := times.foldl min head
    let mx := times.foldl max head
    let sum := times.foldl (· + ·) 0
    let n := times.length
    let sorted := List.insertionSort (· ≤ ·) times
    { m with ResponseTimes := filtered,
             MinResponseTime := mn, MaxResponseTime := mx,
             AvgResponseTime := Int.tdiv sum (n : Int),
             P50ResponseTime := sorted.getD (percentileIdx 1 2 n) 0,
             P80ResponseTime := sorted.getD (percentileIdx 4 5 n) 0,
             P95ResponseTime := sorted.getD (percentileIdx 19 20 n) 0 }

/-- Embedding of Metrics.calculateNetworkLatencyMetrics: prune the two latency
vectors to the 1-second window and recompute their min/max (zero when empty). -/
def calculateNetworkLatencyMetrics (m : MetricsState) (now : Int) : MetricsState :=
  let cutoff := now - secondNs
  let reqs := m.RequestLatencies.filter (fun tr => decide (cutoff ≤ tr.timestamp))
  let m1 :=
    if reqs.isEmpty then
      { m with RequestLatencies := reqs, MinRequestLatency := 0, MaxRequestLatency := 0 }
    else
      let ds := reqs.map (fun tr => tr.duration)
      { m with RequestLatencies := reqs,
               MinRequestLatency := ds.foldl min (ds.headD 0),
               MaxRequestLatency := ds.foldl max (ds.headD 0) }
  let resps := m1.ResponseLatencies.filter (fun tr => decide (cutoff ≤ tr.timestamp))
  if resps.isEmpty then
    { m1 with ResponseLatencies := resps, MinResponseLatency := 0, MaxResponseLatency := 0 }
  else
    let ds := resps.map (fun tr => tr.duration)
    { m1 with ResponseLatencies := resps,
              MinResponseLatency := ds.foldl min (ds.headD 0),
              MaxResponseLatency := ds.foldl max (ds.headD 0) }

/-- The window statistics a snapshot reports (the response-time and latency
sliding-window entries of the map GetSnapshot returns). -/
structure SnapshotStats where
  minResponseTime : Int
  maxResponseTime : Int
  avgResponseTime : Int
  p50ResponseTime : Int
  p80ResponseTime : Int
  p95ResponseTime : Int
  minRequestLatency : Int
  maxRequestLatency : Int
  minResponseLatency : Int
  maxResponseLatency : Int
deriving DecidableEq, Repr

/-- Embedding of Metrics.GetSnapshot restricted to the sliding-window fields:
the returned statistics are read from the state BEFORE
calculateSlidingWindowMetrics and calculateNetworkLatencyMetrics run, exactly
as in the Go source, and the recomputed state is threaded for the next call. -/
def GetSnapshot (m : MetricsState) (now : Int) : SnapshotStats × MetricsState :=
  (⟨m.MinResponseTime, m.MaxResponseTime, m.AvgResponseTime,
    m.P50ResponseTime, m.P80ResponseTime, m.P95ResponseTime,
    m.MinRequestLatency, m.MaxRequestLatency,
    m.MinResponseLatency, m.MaxResponseLatency⟩,
   calculateNetworkLatencyMetrics (calculateSlidingWindowMetrics m now) now)

/-! ## Helper lemmas about the fold-based min/max and the sorted percentile
lookup used by calculateSlidingWindowMetrics. -/

/-- A left fold of min is bounded by its initial value. -/
theorem foldl_min_le_init (l : List Int) (a : Int) : l.foldl min a ≤ a := by
  induction l generalizing a with
  | nil => simp
  | cons x xs ih =>
    simpa using le_trans (ih (min a x)) (min_le_left a x)

/-- A left fold of min is bounded by every list element. -/
theorem foldl_min_le_of_mem {x : Int} (l : List Int) (a : Int) (hx : x ∈ l) :
    l.foldl min a ≤ x := by
  induction l generalizing a with
  | nil => cases hx
  | cons y ys ih =>
    rcases List.mem_cons.mp hx with h | h
    · subst h
      simpa using le_trans (foldl_min_le_init ys (min a x)) (min_le_right a x)
    · simpa using ih (min a y) h

/-- A left fold of max dominates its initial value. -/
theorem le_foldl_max_init (l : List Int) (a : Int) : a ≤ l.foldl max a := by
  induction l generalizing a with
  | nil => simp
  | cons x xs ih =>
    simpa using le_trans (le_max_left a x) (ih (max a x))

/-- A left fold of max dominates every list element. -/
theorem le_foldl_max_of_mem {x : Int} (l : List Int) (a : Int) (hx : x ∈ l) :
    x ≤ l.foldl max a := by
  induction l generalizing a with
  | nil => cases hx
  | cons y ys ih =>
    rcases List.mem_cons.mp hx with h | h
    · subst h
      simpa using le_trans (le_max_right a x) (le_foldl_max_init ys (max a x))
    · simpa using ih (max a y) h

/-- Reading a sorted integer list at increasing indices gives increasing
values. -/
theorem sorted_getD_mono {l : List Int} (h : List.Sorted (· ≤ ·) l) {i j : ℕ}
    (hij : i ≤ j) (hj : j < l.length) : l.getD i 0 ≤ l.getD j 0 := by
  have hi : i < l.length := lt_of_le_of_lt hij hj
  rw [List.getD_eq_get l 0 hi, List.getD_eq_get l 0 hj]
  exact h.rel_get_of_le (show (⟨i, hi⟩ : Fin l.length) ≤ ⟨j, hj⟩ from hij)

/-- An in-bounds getD read is a member of the list. -/
theorem getD_mem_of_lt (l : List Int) {i : ℕ} (hi : i < l.length) : l.getD i 0 ∈ l := by
  rw [List.getD_eq_get l 0 hi]
  exact List.get_mem l i hi

/-- Claim C7: for every non-empty 1-second response-time window, the statistics
recomputed by calculateSlidingWindowMetrics satisfy min ≤ p50 ≤ p80 ≤ p95 ≤
max, the percentiles being read at index floor(n·p) clamped to n−1 in an
ascending-sorted copy of the window. -/
theorem slidingWindow_percentiles_ordered (m : MetricsState) (now : Int)
    (h : m.ResponseTimes.filter (fun tr => decide (now - secondNs ≤ tr.timestamp)) ≠ []) :
    (calculateSlidingWindowMetrics m now).MinResponseTime
        ≤ (calculateSlidingWindowMetrics m now).P50ResponseTime ∧
      (calculateSlidingWindowMetrics m now).P50ResponseTime
        ≤ (calculateSlidingWindowMetrics m now).P80ResponseTime ∧
      (calculateSlidingWindowMetrics m now).P80ResponseTime
        ≤ (calculateSlidingWindowMetrics m now).P95ResponseTime ∧
      (calculateSlidingWindowMetrics m now).P95ResponseTime
        ≤ (calculateSlidingWindowMetrics m now).MaxResponseTime := by
  have hbe : (m.ResponseTimes.filter
      (fun tr => decide (now - secondNs ≤ tr.timestamp))).isEmpty = false := by
    rcases hl : m.ResponseTimes.filter (fun tr => decide (now - secondNs ≤ tr.timestamp)) with
      _ | ⟨a, l⟩
    · exact absurd hl h
    · rw [hl]
      rfl
  simp only [calculateSlidingWindowMetrics, hbe, Bool.false_eq_true, if_false]
  set ts := (m.ResponseTimes.filter
      (fun tr => decide (now - secondNs ≤ tr.timestamp))).map (fun tr => tr.duration) with hts
  set sorted := List.insertionSort (· ≤ ·) ts with hsorted
  have hperm : sorted.Perm ts := List.perm_insertionSort _ _
  have hsort : List.Sorted (· ≤ ·) sorted := List.sorted_insertionSort _ _
  have hslen : sorted.length = ts.length := hperm.length_eq
  have hn : 1 ≤ ts.length := by
    rw [hts, List.length_map]
    rcases hl : m.ResponseTimes.filter (fun tr => decide (now - secondNs ≤ tr.timestamp)) with
      _ | ⟨a, l⟩
    · exact absurd hl h
    · rw [hl]
      simp
  have h50lt : percentileIdx 1 2 ts.length < ts.length := by
    simp only [percentileIdx]
    split <;> omega
  have h80lt : percentileIdx 4 5 ts.length < ts.length := by
    simp only [percentileIdx]
    split <;> omega
  have h95lt : percentileIdx 19 20 ts.length < ts.length := by
    simp only [percentileIdx]
    split <;> omega
  have h5080 : percentileIdx 1 2 ts.length ≤ percentileIdx 4 5 ts.length := by
    simp only [percentileIdx]
    split <;> split <;> omega
  have h8095 : percentileIdx 4 5 ts.length ≤ percentileIdx 19 20 ts.length := by
    simp only [percentileIdx]
    split <;> split <;> omega
  refine ⟨?_, ?_, ?_, ?_⟩
  · have hmem : sorted.getD (percentileIdx 1 2 ts.length) 0 ∈ ts :=
      hperm.mem_iff.mp (getD_mem_of_lt sorted (by rw [hslen]; exact h50lt))
    exact foldl_min_le_of_mem ts (ts.headD 0) hmem
  · exact sorted_getD_mono hsort h5080 (by rw [hslen]; exact h80lt)
  · exact sorted_getD_mono hsort h8095 (by rw [hslen]; exact h95lt)
  · have hmem : sorted.getD (percentileIdx 19 20 ts.length) 0 ∈ ts :=
      hperm.mem_iff.mp (getD_mem_of_lt sorted (by rw [hslen]; exact h95lt))
    exact le_foldl_max_of_mem ts (ts.headD 0) hmem

/-- Witness for C7 at a concrete three-event window. -/
theorem slidingWindow_percentiles_ordered_witness :
    (calculateSlidingWindowMetrics
        { ResponseTimes := [⟨0, 9⟩, ⟨0, 3⟩, ⟨0, 7⟩] } 0).MinResponseTime
      ≤ (calculateSlidingWindowMetrics
        { ResponseTimes := [⟨0, 9⟩, ⟨0, 3⟩, ⟨0, 7⟩] } 0).P50ResponseTime :=
  (slidingWindow_percentiles_ordered { ResponseTimes := [⟨0, 9⟩, ⟨0, 3⟩, ⟨0, 7⟩] } 0
    (by decide)).1

/-- Counterexample to claim C4: record one response time at t = 0 (duration
5 ms), snapshot at t = 0.1 s (which stores 5 ms statistics), stay idle, then
take a single snapshot at t = 1.2 s, more than 1.1 s after the last event. The
claim says this snapshot reports all window statistics as 0, but GetSnapshot
reads the stored statistics before recomputing, so it still reports 5 ms. -/
theorem getSnapshot_stale_after_idle :
    ((GetSnapshot (GetSnapshot { ResponseTimes := [⟨0, 5000000⟩] } 100000000).2
        1200000000).1).minResponseTime = 5000000 ∧
      ¬ (((GetSnapshot (GetSnapshot { ResponseTimes := [⟨0, 5000000⟩] } 100000000).2
        1200000000).1).minResponseTime = 0) := by
  decide

/-- Claim C4 amended: each snapshot call prunes the vectors to events newer
than now − 1 s and recomputes the statistics, but the values it RETURNS are the
ones stored by the previous call. Consequently when every recorded event is
older than now − 1 s, it is the snapshot AFTER the one taken at now that
reports every window statistic as 0 (at any later time now2). -/
theorem getSnapshot_zero_after_pruned (m : MetricsState) (now now2 : Int)
    (hrt : ∀ td ∈ m.ResponseTimes, td.timestamp < now - secondNs)
    (hreq : ∀ td ∈ m.RequestLatencies, td.timestamp < now - secondNs)
    (hresp : ∀ td ∈ m.ResponseLatencies, td.timestamp < now - secondNs) :
    (GetSnapshot (GetSnapshot m now).2 now2).1 = ⟨0, 0, 0, 0, 0, 0, 0, 0, 0, 0⟩ := by
  have h1 : m.ResponseTimes.filter (fun tr => decide (now - secondNs ≤ tr.timestamp)) = [] := by
    rw [List.filter_eq_nil_iff]
    intro a ha
    simpa using not_le.mpr (hrt a ha)
  have h2 : m.RequestLatencies.filter (fun tr => decide (now - secondNs ≤ tr.timestamp)) = [] := by
    rw [List.filter_eq_nil_iff]
    intro a ha
    simpa using not_le.mpr (hreq a ha)
  have h3 : m.ResponseLatencies.filter (fun tr => decide (now - secondNs ≤ tr.timestamp)) = [] := by
    rw [List.filter_eq_nil_iff]
    intro a ha
    simpa using not_le.mpr (hresp a ha)
  simp only [GetSnapshot, calculateSlidingWindowMetrics, calculateNetworkLatencyMetrics,
    h1, h2, h3, List.isEmpty_nil, if_true]

/-- Witness for the amended C4 theorem at a concrete pre-idle state. -/
theorem getSnapshot_zero_after_pruned_witness :
    (GetSnapshot (GetSnapshot
        { ResponseTimes := [⟨0, 7⟩], MinResponseTime := 7, RequestLatencies := [⟨0, 3⟩] }
        2000000000).2 2500000000).1 = ⟨0, 0, 0, 0, 0, 0, 0, 0, 0, 0⟩ :=
  getSnapshot_zero_after_pruned
    { ResponseTimes := [⟨0, 7⟩], MinResponseTime := 7, RequestLatencies := [⟨0, 3⟩] }
    2000000000 2500000000 (by decide) (by decide) (by decide)

/-! ## Behavior interpreter (internal/simulation/clientstarlark.go). Starlark
values returned by hooks are modelled by the fragment the result parser
inspects; a hook evaluation is an Except value: error for a raised script
error, ok for the returned value. -/

/-- The fragment of Starlark values relevant to hook results. -/
inductive SValue where
  | none
  | bool (b : Bool)
  | int (n : Int)
  | str (s : String)
  | dict (entries : List (String × SValue))

/-- Starlark truth: None, False, 0, the empty string and the empty dict are
false, everything else here is true (v.Truth() == starlark.True). -/
def truth : SValue → Bool
  | SValue.none => false
  | SValue.bool b => b
  | SValue.int n => n != 0
  | SValue.str s => s != ""
  | SValue.dict es => !es.isEmpty

/-- Lookup in a Starlark dict (starlark.Dict.Get on a string key; first
matching entry). -/
def dictGet (es : List (String × SValue)) (k : String) : Option SValue :=
  (es.find? (fun e => e.1 == k)).map (fun e => e.2)

/-- Embedding of starlark.AsInt32: succeeds only on an int fitting in 32
bits. -/
def asInt32 : SValue → Option Int
  | SValue.int n => if -2147483648 ≤ n ∧ n < 2147483648 then some n else Option.none
  | _ => Option.none

/-- Whether a Starlark value is a dict (the *starlark.Dict type assertion in
parseOnRequestResult). -/
def isDict : SValue → Bool
  | SValue.dict _ => true
  | _ => false

/-- Embedding of parseOnRequestResult: defaults allow=true, delay=0, timeout=0;
when the result is a dict each present key overrides its default, non-int32
delay/timeout values being ignored. -/
def parseOnRequestResult (result : SValue) : Bool × Int × Int :=
  match result with
  | SValue.dict es =>
    let allow := match dictGet es "allow" with
      | some v => truth v
      | Option.none => true
    let delay := match dictGet es "delay" with
      | some v => (asInt32 v).getD 0
      | Option.none => 0
    let timeout := match dictGet es "timeout" with
      | some v => (asInt32 v).getD 0
      | Option.none => 0
    (allow, delay, timeout)
  | _ => (true, 0, 0)

/-- The Go scriptResult record: hook decision plus an optional script error.
Its zero value has allow = false. -/
structure scriptResult where
  allow : Bool := false
  delayMs : Int := 0
  timeoutMs : Int := 0
  err : Option String := Option.none
deriving DecidableEq

/-- Embedding of StarlarkClientBehavior.executeFunction for execOnRequest:
an undefined hook yields allow=true; a raising evaluation returns the
zero-valued result carrying only the error (so allow=false); a returned value
is parsed by parseOnRequestResult. -/
def executeOnRequest (defined : Bool) (outcome : Except String SValue) : scriptResult :=
  if defined then
    match outcome with
    | Except.error e => { err := some ("on_request error: " ++ e) }
    | Except.ok v =>
      let r := parseOnRequestResult v
      { allow := r.1, delayMs := r.2.1, timeoutMs := r.2.2 }
  else { allow := true }

/-- Embedding of executeFunction for execOnRetry: an undefined hook yields the
zero result (allow=false, no retry); a raising evaluation likewise but with the
error recorded; a returned value is parsed by parseOnRequestResult with the
timeout discarded. -/
def executeOnRetry (defined : Bool) (outcome : Except String SValue) : scriptResult :=
  if defined then
    match outcome with
    | Except.error e => { err := some ("on_retry error: " ++ e) }
    | Except.ok v =>
      let r := parseOnRequestResult v
      { allow := r.1, delayMs := r.2.1 }
  else {}

/-! ## Client request loop (Client.requestWithHooks, Client.sendRequest from
the simulation package). Hook evaluations and send outcomes are supplied as
oracle inputs; the loop's observable effects (which timeout races each send,
whether the request is blocked, how many sends happen) are returned. -/

/-- The Response data structure from common.go; the timestamp is epoch
nanoseconds. -/
structure Response where
  Id : String := ""
  Ok : Bool := false
  Data : String := ""
  Error : String := ""
  Timestamp : Int := 0
deriving DecidableEq

/-- The zero Response value returned by Go on error paths. -/
def emptyResponse : Response := {}

/-- Which of the three client outcome paths requestWithHooks takes for a
sendRequest result: err == nil ∧ ok → on_response (success counter); err ==
nil ∧ !ok → on_error (error-response counter); err != nil → on_fail
(network-failure counter). -/
inductive ClientPath where
  | success
  | errorPath
  | failPath
deriving DecidableEq

/-- Classification of a (Response, error) pair exactly as the branch structure
of requestWithHooks lines 182-218 does. -/
def classifyOutcome (r : Response × Option String) : ClientPath :=
  match r.2 with
  | Option.none => if r.1.Ok then ClientPath.success else ClientPath.errorPath
  | some _ => ClientPath.failPath

/-- The action the pre-request evaluation loop takes on one on_request result,
given the timeout variable carried from earlier attempts: block when not
allowed, sleep and re-evaluate on a positive delay, otherwise proceed to send
with the carried timeout overwritten only when this evaluation returned a
positive timeout. -/
inductive PreRequestAction where
  | blocked
  | delayed (ms : Int)
  | proceed (timeoutMs : Int)
deriving DecidableEq

/-- One iteration of the pre-request evaluation loop of requestWithHooks. -/
def clientPreRequestAction (carriedTimeoutMs : Int) (r : scriptResult) : PreRequestAction :=
  if !r.allow then PreRequestAction.blocked
  else if r.delayMs > 0 then PreRequestAction.delayed r.delayMs
  else PreRequestAction.proceed (if r.timeoutMs > 0 then r.timeoutMs else carriedTimeoutMs)

/-- The whole pre-request evaluation loop over this attempt's successive
on_request results: none when the request is blocked (or the oracle runs out),
some t when the loop exits to send with timeout variable t. -/
def evalLoop (carriedTimeoutMs : Int) : List scriptResult → Option Int
  | [] => Option.none
  | r :: rest =>
    match clientPreRequestAction carriedTimeoutMs r with
    | PreRequestAction.blocked => Option.none
    | PreRequestAction.delayed _ => evalLoop carriedTimeoutMs rest
    | PreRequestAction.proceed t => some t

/-- The oracle for one attempt of the retry loop: the successive on_request
evaluation results, the outcome of sendRequest, and the on_retry evaluation
result (consulted only on non-success outcomes). -/
structure AttemptSpec where
  onRequestEvals : List scriptResult
  sendOutcome : Response × Option String
  onRetryResult : scriptResult

/-- Embedding of the retry loop of Client.requestWithHooks, recording the
timeout raced against each performed send. The timeout variable is declared
once before the loop and persists across attempts, being overwritten only by a
positive on_request timeout. -/
def requestWithHooksTimeouts : Int → List AttemptSpec → List Int
  | _, [] => []
  | timeout, a :: rest =>
    match evalLoop timeout a.onRequestEvals with
    | Option.none => []
    | some t =>
      t :: (if classifyOutcome a.sendOutcome = ClientPath.success then []
            else if a.onRetryResult.allow then requestWithHooksTimeouts t rest
            else [])

/-- Counterexample to claim C2: when a defined on_request hook raises,
executeFunction returns the zero-valued scriptResult, whose allow field is
false, so the client blocks the request (and counts it as blocked) instead of
letting it proceed with the claimed allow=true default. -/
theorem onRequest_error_blocks :
    (executeOnRequest true (Except.error "boom")).allow = false ∧
      clientPreRequestAction 0 (executeOnRequest true (Except.error "boom")) =
        PreRequestAction.blocked ∧
      requestWithHooksTimeouts 0
        [⟨[executeOnRequest true (Except.error "boom")], (emptyResponse, Option.none),
          {}⟩] = [] := by
  decide

/-- Claim C2 amended: a script error in an on_request evaluation is logged and
returned with the zero-valued decision, so allow defaults to FALSE: the request
is blocked and counted as blocked, and no send happens for that attempt. A
script error in an on_retry evaluation likewise defaults to allow=false, so no
retry occurs. -/
theorem scriptError_default_decisions (e : String) (t : Int) :
    (executeOnRequest true (Except.error e)).allow = false ∧
      clientPreRequestAction t (executeOnRequest true (Except.error e)) =
        PreRequestAction.blocked ∧
      (executeOnRetry true (Except.error e)).allow = false := by
  refine ⟨rfl, ?_, rfl⟩
  simp [clientPreRequestAction, executeOnRequest]

/-- Claim C3: the timeout variable of requestWithHooks is declared before the
retry loop and only overwritten by a positive on_request timeout, so when a
retry's own evaluation loop returns no positive timeout, the FIRST attempt's
timeout is still raced against the retry's send. Concretely: attempt 1 gets
timeout 500 ms and fails with a transport error, the retry's on_request returns
timeout 0, yet the retry is also raced with 500 ms (the claim, following the
specification, requires it to be raced with no timeout). -/
theorem retry_reuses_previous_timeout :
    requestWithHooksTimeouts 0
      [⟨[{ allow := true, timeoutMs := 500 }], (emptyResponse, some "packet lost"),
        { allow := true }⟩,
       ⟨[{ allow := true, timeoutMs := 0 }], ({ Ok := true }, Option.none), {}⟩]
      = [500, 500] ∧
      ¬ requestWithHooksTimeouts 0
        [⟨[{ allow := true, timeoutMs := 500 }], (emptyResponse, some "packet lost"),
          { allow := true }⟩,
         ⟨[{ allow := true, timeoutMs := 0 }], ({ Ok := true }, Option.none), {}⟩]
        = [500, 0] := by
  decide

/-- Claim C9: a defined on_retry hook returning a non-dict value, or a dict
lacking the allow key, parses to allow=true and the client performs another
send; an undefined on_retry yields the zero result allow=false and the request
ends after one send. -/
theorem onRetry_default_allow :
    (∀ v : SValue, isDict v = false → (executeOnRetry true (Except.ok v)).allow = true) ∧
      (∀ es : List (String × SValue), dictGet es "allow" = Option.none →
        (executeOnRetry true (Except.ok (SValue.dict es))).allow = true) ∧
      (∀ o : Except String SValue, (executeOnRetry false o).allow = false) ∧
      (requestWithHooksTimeouts 0
        [⟨[{ allow := true }], (emptyResponse, some "boom"),
          executeOnRetry true (Except.ok (SValue.int 5))⟩,
         ⟨[{ allow := true }], ({ Ok := true }, Option.none), {}⟩]).length = 2 ∧
      (requestWithHooksTimeouts 0
        [⟨[{ allow := true }], (emptyResponse, some "boom"),
          executeOnRetry false (Except.ok (SValue.int 5))⟩,
         ⟨[{ allow := true }], ({ Ok := true }, Option.none), {}⟩]).length = 1 := by
  refine ⟨?_, ?_, ?_, by decide, by decide⟩
  · intro v hv
    cases v with
    | dict es => simp [isDict] at hv
    | none => rfl
    | bool b => rfl
    | int n => rfl
    | str s => rfl
  · intro es hes
    simp [executeOnRetry, parseOnRequestResult, hes]
  · intro o
    rfl

/-- Witness for C9 at concrete non-dict and allow-free dict values. -/
theorem onRetry_default_allow_witness :
    (executeOnRetry true (Except.ok (SValue.int 7))).allow = true ∧
      (executeOnRetry true (Except.ok (SValue.dict [("delay", SValue.int 5)]))).allow = true :=
  ⟨onRetry_default_allow.1 (SValue.int 7) (by decide),
   onRetry_default_allow.2.1 [("delay", SValue.int 5)] rfl⟩

/-! ## Server admission and Network.Send (Server.handleRequestWithResources,
Network.Send, Network.oneWayTrip). Concurrency and randomness are supplied as
oracle parameters: the memory utilization read under the lock, the queue
occupancy at the enqueue attempt, whether the server context is cancelled, the
worker's reply, and whether each one-way trip drops the packet. -/

/-- Embedding of Server.handleRequestWithResources on the path where the
waiter observes the worker's reply: reject with "server out of memory" when
memUtil > 0.98, propagate cancellation, reject with "server queue full" when
the bounded queue is at capacity, otherwise return the worker's reply. -/
def handleRequestWithResources (memUtil : ℚ) (queueLen queueCap : ℕ) (ctxDone : Bool)
    (workerReply : Response × Option String) : Response × Option String :=
  if memUtil > 98/100 then (emptyResponse, some "server out of memory")
  else if ctxDone then (emptyResponse, some "context canceled")
  else if queueLen < queueCap then workerReply
  else (emptyResponse, some "server queue full")

/-- Embedding of Network.Send around the server call: a dropped forward trip
returns the transport error; otherwise the server's (Response, error) pair is
folded into a response — on any server error or not-ok response, Ok is forced
to false and an empty Error field is filled from the Go error text — and a
dropped return trip returns the transport error, else the response with a nil
error. -/
def NetworkSend (forwardDrop : Bool) (server : Response × Option String)
    (returnDrop : Bool) : Response × Option String :=
  if forwardDrop then (emptyResponse, some "packet lost")
  else
    let resp := server.1
    let err := server.2
    let resp1 :=
      if err = Option.none ∧ resp.Ok then resp
      else
        let r := { resp with Ok := false }
        if r.Error = "" ∧ err ≠ Option.none then { r with Error := err.getD "" } else r
    if returnDrop then (emptyResponse, some "packet lost")
    else (resp1, Option.none)

/-- Counterexample to claim C1: with memory utilization 0.99 the admission
check rejects, but Network.Send (with neither leg dropping) folds the rejection
into a synthetic response and returns a NIL error, so the client classifies the
outcome as an error response (on_error path), not as a network failure
(on_fail path). -/
theorem admission_reject_not_transport_error :
    (NetworkSend false
        (handleRequestWithResources (99/100) 0 10 false ({ Ok := true, Data := "OK" },
          Option.none)) false).2 = Option.none ∧
      classifyOutcome (NetworkSend false
        (handleRequestWithResources (99/100) 0 10 false ({ Ok := true, Data := "OK" },
          Option.none)) false) = ClientPath.errorPath ∧
      ¬ classifyOutcome (NetworkSend false
        (handleRequestWithResources (99/100) 0 10 false ({ Ok := true, Data := "OK" },
          Option.none)) false) = ClientPath.failPath := by
  have hserver : handleRequestWithResources (99/100) 0 10 false
      ({ Ok := true, Data := "OK" }, Option.none)
      = (emptyResponse, some "server out of memory") := by
    rw [handleRequestWithResources, if_pos (by norm_num)]
  rw [hserver]
  refine ⟨rfl, rfl, ?_⟩
  intro hcontra
  simp [NetworkSend, classifyOutcome, emptyResponse] at hcontra

/-- Claim C1 amended: a managed-mode admission rejection (memory utilization
above 0.98, or bounded queue at capacity) reaches the client as a SYNTHETIC
RESPONSE, not a transport error: when neither network leg drops, Network.Send
returns a nil error together with ok=false and the rejection text in the
response's error field, so the client takes the on_error path and counts an
error response. -/
theorem admission_reject_synthetic_response (memUtil : ℚ) (queueLen queueCap : ℕ)
    (workerReply : Response × Option String) :
    (memUtil > 98/100 →
      NetworkSend false (handleRequestWithResources memUtil queueLen queueCap false
          workerReply) false
        = ({ emptyResponse with Error := "server out of memory" }, Option.none) ∧
      classifyOutcome (NetworkSend false
        (handleRequestWithResources memUtil queueLen queueCap false workerReply) false)
        = ClientPath.errorPath) ∧
    (¬ memUtil > 98/100 → queueCap ≤ queueLen →
      NetworkSend false (handleRequestWithResources memUtil queueLen queueCap false
          workerReply) false
        = ({ emptyResponse with Error := "server queue full" }, Option.none) ∧
      classifyOutcome (NetworkSend false
        (handleRequestWithResources memUtil queueLen queueCap false workerReply) false)
        = ClientPath.errorPath) := by
  constructor
  · intro hmem
    have hserver : handleRequestWithResources memUtil queueLen queueCap false workerReply
        = (emptyResponse, some "server out of memory") := by
      rw [handleRequestWithResources, if_pos hmem]
    rw [hserver]
    exact ⟨rfl, rfl⟩
  · intro hmem hq
    have hserver : handleRequestWithResources memUtil queueLen queueCap false workerReply
        = (emptyResponse, some "server queue full") := by
      rw [handleRequestWithResources, if_neg hmem]
      simp [Nat.not_lt.mpr hq]
    rw [hserver]
    exact ⟨rfl, rfl⟩

/-- Witness for the amended C1 theorem: both rejection kinds at concrete
inputs. -/
theorem admission_reject_synthetic_response_witness :
    NetworkSend false (handleRequestWithResources (99/100) 0 10 false
        ({ Ok := true, Data := "OK" }, Option.none)) false
      = ({ emptyResponse with Error := "server out of memory" }, Option.none) ∧
    NetworkSend false (handleRequestWithResources (1/2) 10 10 false
        ({ Ok := true, Data := "OK" }, Option.none)) false
      = ({ emptyResponse with Error := "server queue full" }, Option.none) :=
  ⟨((admission_reject_synthetic_response (99/100) 0 10
      ({ Ok := true, Data := "OK" }, Option.none)).1 (by norm_num)).1,
   ((admission_reject_synthetic_response (1/2) 10 10
      ({ Ok := true, Data := "OK" }, Option.none)).2 (by norm_num) (le_refl 10)).1⟩

/-! ## Work-duration and latency samplers (Server.processRequest lines 500-519,
Network.oneWayTrip lines 129-148). The normal draw rand.NormFloat64() is an
arbitrary rational parameter z. -/

/-- Embedding of the work-time sampling step of Server.processRequest: swap the
evaluated curve bounds when min > max, use min directly when they are equal,
otherwise draw z·stddev + mean with mean (min+max)/2 and stddev (max−min)/6 and
clamp a negative draw to 0. -/
def processRequestWorkMs (respTimeMin respTimeMax z : ℚ) : ℚ :=
  let mn := if respTimeMin > respTimeMax then respTimeMax else respTimeMin
  let mx := if respTimeMin > respTimeMax then respTimeMin else respTimeMax
  if mn = mx then mn
  else
    let mean := (mn + mx) / 2
    let stddev := (mx - mn) / 6
    let w := z * stddev + mean
    if w < 0 then 0 else w

/-- Embedding of the latency sampling step of Network.oneWayTrip: as for the
server sampler but without the zero clamp, followed by math.Max(latencyMs, 1)
applied to BOTH branches. -/
def oneWayTripLatencyMs (latMin latMax z : ℚ) : ℚ :=
  let mn := if latMin > latMax then latMax else latMin
  let mx := if latMin > latMax then latMin else latMax
  let l := if mn = mx then mn else z * ((mx - mn) / 6) + (mn + mx) / 2
  max l 1

/-- Counterexample to claim C10: when the two response-time curves evaluate to
the same NEGATIVE value, processRequest takes the min==max branch, which has no
zero clamp, and the sampled work duration is negative. -/
theorem processRequest_negative_work :
    processRequestWorkMs (-1) (-1) 0 = -1 ∧ ¬ (0 ≤ processRequestWorkMs (-1) (-1) 0) := by
  norm_num [processRequestWorkMs]

/-- Claim C10 amended: both samplers sort the evaluated (min, max) pair, so the
stddev is never negative; the network latency sample is ≥ 1 ms for every
configuration and draw; the server work sample is ≥ 0 except on the unclamped
min = max branch, so it is ≥ 0 whenever equal evaluated bounds are
nonnegative. -/
theorem sampler_lower_bounds (mn mx z : ℚ) :
    ((mn = mx → 0 ≤ mn) → 0 ≤ processRequestWorkMs mn mx z) ∧
      1 ≤ oneWayTripLatencyMs mn mx z ∧
      0 ≤ ((if mn > mx then mn else mx) - (if mn > mx then mx else mn)) / 6 := by
  refine ⟨?_, le_max_right _ _, ?_⟩
  · intro heq
    rw [processRequestWorkMs]
    by_cases hgt : mn > mx
    · simp only [if_pos hgt]
      by_cases hmm : mx = mn
      · rw [if_pos hmm]
        linarith
      · rw [if_neg hmm]
        split <;> linarith
    · simp only [if_neg hgt]
      by_cases hmm : mn = mx
      · rw [if_pos hmm]
        exact heq hmm
      · rw [if_neg hmm]
        split <;> linarith
  · split <;> [linarith; linarith]

/-- Witness for the amended C10 theorem at concrete bounds and draw. -/
theorem sampler_lower_bounds_witness :
    0 ≤ processRequestWorkMs 0 10 (-100) ∧ 1 ≤ oneWayTripLatencyMs 0 10 (-100) :=
  ⟨(sampler_lower_bounds 0 10 (-100)).1 (fun _ => le_refl 0),
   (sampler_lower_bounds 0 10 (-100)).2.1⟩

/-! ## Server resource manager (Server.updateResources, memory portion).
CurrentMemoryMB is an int64; the Go conversion int64(x) truncates toward
zero. The 100 ms tick supplies whether the GC-pause interval elapsed as a
boolean oracle. -/

/-- Go's int64(x) conversion of a float: truncation toward zero. -/
def truncQ (q : ℚ) : Int := if 0 ≤ q then ⌊q⌋ else ⌈q⌉

/-- The ResourceSettings record from the Go server. -/
structure ResourceSettings where
  MaxConcurrentRequests : Int
  MaxMemoryMB : Int
  MaxQueueSize : Int
  MemoryLeakRateMBPerSec : ℚ
  MemoryPerRequestMB : ℚ
  GCPauseIntervalSec : ℚ
  GCPauseDurationMs : ℚ

/-- Embedding of the CurrentMemoryMB update of one Server.updateResources tick:
add the int64-truncated leak when loadFactor > 0.1, move halfway toward the
target when below it, decay by one twentieth when above it and idle, cap at
MaxMemoryMB, then snap down to int64(1.1·target) when the GC interval
elapsed. -/
def updateResourcesMemory (rs : ResourceSettings) (activeReqs currentMem : Int)
    (gcFires : Bool) : Int :=
  let maxReqs := rs.MaxConcurrentRequests
  let loadFactor : ℚ := (activeReqs : ℚ) / (maxReqs : ℚ)
  let baseMemoryMB : ℚ := (maxReqs : ℚ) * (1/2)
  let requestMemoryMB : ℚ := (activeReqs : ℚ) * rs.MemoryPerRequestMB
  let targetMemoryMB : ℚ := baseMemoryMB + requestMemoryMB
  let mem1 : Int :=
    if loadFactor > 1/10 then
      currentMem + truncQ (rs.MemoryLeakRateMBPerSec * (1/10) * loadFactor)
    else currentMem
  let currentTarget : Int := truncQ targetMemoryMB
  let mem2 : Int :=
    if mem1 < currentTarget then mem1 + Int.tdiv (currentTarget - mem1) 2
    else if mem1 > currentTarget ∧ loadFactor < 1/10 then
      mem1 - Int.tdiv (mem1 - currentTarget) 20
    else mem1
  let mem3 : Int := if mem2 > rs.MaxMemoryMB then rs.MaxMemoryMB else mem2
  if gcFires then
    let targetAfterGC := truncQ (targetMemoryMB * (11/10))
    if mem3 > targetAfterGC then targetAfterGC else mem3
  else mem3

/-- On a loaded tick with nonnegative leak rate, memory at or above target and
no cap or GC interference, the tick grows CurrentMemoryMB by exactly the
int64-truncated leak amount. -/
theorem updateResourcesMemory_leak_step (rs : ResourceSettings) (active cur : Int)
    (h1 : ((active : ℚ) / ((rs.MaxConcurrentRequests : Int) : ℚ)) > 1/10)
    (h2 : 0 ≤ rs.MemoryLeakRateMBPerSec)
    (h3 : truncQ ((rs.MaxConcurrentRequests : ℚ) * (1/2) + (active : ℚ) * rs.MemoryPerRequestMB)
      ≤ cur)
    (h4 : cur + truncQ (rs.MemoryLeakRateMBPerSec * (1/10)
      * ((active : ℚ) / ((rs.MaxConcurrentRequests : Int) : ℚ))) ≤ rs.MaxMemoryMB) :
    updateResourcesMemory rs active cur false
      = cur + truncQ (rs.MemoryLeakRateMBPerSec * (1/10)
          * ((active : ℚ) / ((rs.MaxConcurrentRequests : Int) : ℚ))) := by
  have hload : (0 : ℚ) < (active : ℚ) / ((rs.MaxConcurrentRequests : Int) : ℚ) :=
    lt_trans (by norm_num) h1
  have hleak : (0 : ℚ) ≤ rs.MemoryLeakRateMBPerSec * (1/10)
      * ((active : ℚ) / ((rs.MaxConcurrentRequests : Int) : ℚ)) :=
    mul_nonneg (mul_nonneg h2 (by norm_num)) (le_of_lt hload)
  have hL0 : 0 ≤ truncQ (rs.MemoryLeakRateMBPerSec * (1/10)
      * ((active : ℚ) / ((rs.MaxConcurrentRequests : Int) : ℚ))) := by
    rw [truncQ, if_pos hleak]
    exact Int.floor_nonneg.mpr hleak
  simp only [updateResourcesMemory, Bool.false_eq_true, if_false]
  rw [if_pos h1]
  set L := truncQ (rs.MemoryLeakRateMBPerSec * (1/10)
    * ((active : ℚ) / ((rs.MaxConcurrentRequests : Int) : ℚ))) with hLdef
  set T := truncQ ((rs.MaxConcurrentRequests : ℚ) * (1/2)
    + (active : ℚ) * rs.MemoryPerRequestMB) with hTdef
  have hnc2 : ¬(cur + L > T ∧
      (active : ℚ) / ((rs.MaxConcurrentRequests : Int) : ℚ) < 1/10) :=
    fun hconj => absurd hconj.2 (not_lt.mpr (le_of_lt h1))
  rw [if_neg hnc2]
  split_ifs with hb hd <;> omega

/-- One tick of the concrete scenario: leak rate 10, memoryPerRequestMB 2,
100 workers all busy (loadFactor = 1). Memory at or above the 250 MB target and
below the cap grows by exactly 1 MB. -/
theorem leak_iterate_step (x : Int) (hx : 250 ≤ x) (hx2 : x + 1 ≤ 1024) :
    updateResourcesMemory ⟨100, 1024, 500, 10, 2, 10, 50⟩ 100 x false = x + 1 := by
  have h := updateResourcesMemory_leak_step ⟨100, 1024, 500, 10, 2, 10, 50⟩ 100 x
    (by norm_num) (by norm_num)
    (by norm_num [truncQ]; omega)
    (by norm_num [truncQ]; omega)
  rw [h]
  norm_num [truncQ]

/-- One hundred ticks (10 s) of the concrete scenario grow memory from 300 MB
to 400 MB: exactly 100 MB of leak. -/
theorem leak_iterate_100 :
    (fun mem => updateResourcesMemory ⟨100, 1024, 500, 10, 2, 10, 50⟩ 100 mem false)^[100]
      300 = 400 := by
  have key : ∀ n : ℕ, ∀ x : Int, 250 ≤ x → x + n ≤ 1024 →
      (fun mem => updateResourcesMemory ⟨100, 1024, 500, 10, 2, 10, 50⟩ 100 mem false)^[n] x
        = x + n := by
    intro n
    induction n with
    | zero =>
      intro x _ _
      simp
    | succ k ih =>
      intro x hx hxk
      rw [Function.iterate_succ_apply]
      have hstep : updateResourcesMemory ⟨100, 1024, 500, 10, 2, 10, 50⟩ 100 x false
          = x + 1 := leak_iterate_step x hx (by omega)
      show (fun mem => updateResourcesMemory ⟨100, 1024, 500, 10, 2, 10, 50⟩ 100 mem
        false)^[k] (updateResourcesMemory ⟨100, 1024, 500, 10, 2, 10, 50⟩ 100 x false)
        = x + (k + 1 : ℕ)
      rw [hstep, ih (x + 1) (by omega) (by omega)]
      push_cast
      ring
  have := key 100 300 (by norm_num) (by norm_num)
  rw [this]
  norm_num

/-- Claim C5 amended: on a tick with loadFactor > 0.1, CurrentMemoryMB grows by
the INT64-TRUNCATION of memoryLeakRateMBPerSec · 0.1 · loadFactor (when memory
is at or above target and below the cap, with no GC snap); fractional per-tick
leak amounts are therefore lost. With memoryLeakRateMBPerSec = 10 the ±20%
growth approximation holds at loadFactor = 1, where 10 s of ticks grow memory
by exactly 100 MB. -/
theorem memoryLeak_truncated_growth :
    (∀ (rs : ResourceSettings) (active cur : Int),
      ((active : ℚ) / ((rs.MaxConcurrentRequests : Int) : ℚ)) > 1/10 →
      0 ≤ rs.MemoryLeakRateMBPerSec →
      truncQ ((rs.MaxConcurrentRequests : ℚ) * (1/2) + (active : ℚ) * rs.MemoryPerRequestMB)
        ≤ cur →
      cur + truncQ (rs.MemoryLeakRateMBPerSec * (1/10)
        * ((active : ℚ) / ((rs.MaxConcurrentRequests : Int) : ℚ))) ≤ rs.MaxMemoryMB →
      updateResourcesMemory rs active cur false
        = cur + truncQ (rs.MemoryLeakRateMBPerSec * (1/10)
            * ((active : ℚ) / ((rs.MaxConcurrentRequests : Int) : ℚ)))) ∧
    (fun mem => updateResourcesMemory ⟨100, 1024, 500, 10, 2, 10, 50⟩ 100 mem false)^[100]
      300 = 400 :=
  ⟨updateResourcesMemory_leak_step, leak_iterate_100⟩

/-- Witness for the amended C5 theorem at the concrete loaded scenario. -/
theorem memoryLeak_truncated_growth_witness :
    updateResourcesMemory ⟨100, 1024, 500, 10, 2, 10, 50⟩ 100 300 false
      = 300 + truncQ ((10 : ℚ) * (1/10) * ((100 : ℚ) / (((100 : Int) : Int) : ℚ))) :=
  memoryLeak_truncated_growth.1 ⟨100, 1024, 500, 10, 2, 10, 50⟩ 100 300
    (by norm_num) (by norm_num) (by norm_num [truncQ]) (by norm_num [truncQ])

/-- Counterexample to claim C5: with memoryLeakRateMBPerSec = 10 and a constant
loadFactor of 0.5 (50 of 100 workers busy), the leak amount 0.5 MB truncates to
0 on every tick, so memory starting in steady state at the 150 MB target never
grows: after 100 ticks (10 s) the accumulated growth is 0 MB, not within ±20%
of the claimed 10·10·0.5 = 50 MB, and a single tick does not add 0.5 MB. -/
theorem memoryLeak_fractional_no_growth :
    updateResourcesMemory ⟨100, 1024, 500, 10, 2, 10, 50⟩ 50 150 false = 150 ∧
      (fun mem => updateResourcesMemory ⟨100, 1024, 500, 10, 2, 10, 50⟩ 50 mem false)^[100]
        150 = 150 ∧
      ¬ ((40 : Int) ≤
        (fun mem => updateResourcesMemory ⟨100, 1024, 500, 10, 2, 10, 50⟩ 50 mem false)^[100]
          150 - 150) ∧
      ¬ (((updateResourcesMemory ⟨100, 1024, 500, 10, 2, 10, 50⟩ 50 150 false : Int) : ℚ)
        = (150 : ℚ) + 10 * (1/10) * ((50 : ℚ) / 100)) := by
  have hfix : updateResourcesMemory ⟨100, 1024, 500, 10, 2, 10, 50⟩ 50 150 false = 150 := by
    norm_num [updateResourcesMemory, truncQ]
  refine ⟨hfix, Function.iterate_fixed hfix 100, ?_, ?_⟩
  · rw [Function.iterate_fixed hfix 100]
    norm_num
  · rw [hfix]
    norm_num

/-! ## Simulation client-config operations (Simulation.UpdateClientConfig,
AddClientsConfig, DeleteClientConfigById, ClearClientConfigs). Durations are
int64 nanoseconds; each operation returns the Go error (as an optional string)
together with the post-state. -/

/-- The ClientConfig record from the Go simulation package. -/
structure ClientConfig where
  Id : String
  Count : Int
  RequestRate : Int
  RampUpTime : Int
  Delay : Int
  Behavior : String
deriving DecidableEq, Repr

/-- The part of Simulation state the config operations read and write: the
running flag and the stored list of client configurations. -/
structure SimulationState where
  running : Bool
  clientsConfigs : List ClientConfig
deriving DecidableEq, Repr

/-- Replace the first config whose Id matches, as the loop in
UpdateClientConfig does; none when no config matches. -/
def updateFirstConfig (id : String) (newCfg : ClientConfig) :
    List ClientConfig → Option (List ClientConfig)
  | [] => Option.none
  | c :: cs =>
    if c.Id = id then some (newCfg :: cs)
    else (updateFirstConfig id newCfg cs).map (fun l => c :: l)

/-- Remove the first config whose Id matches, as the loop in
DeleteClientConfigById does; none when no config matches. -/
def deleteFirstConfig (id : String) :
    List ClientConfig → Option (List ClientConfig)
  | [] => Option.none
  | c :: cs =>
    if c.Id = id then some cs
    else (deleteFirstConfig id cs).map (fun l => c :: l)

/-- Embedding of Simulation.UpdateClientConfig: error while running, error on
unknown id, otherwise replace the matching config. -/
def UpdateClientConfig (s : SimulationState) (id : String) (count requestRate rampUpTime
    delay : Int) (behavior : String) : Option String × SimulationState :=
  if s.running then
    (some "Simulation: Error: Cannot update client configs while running", s)
  else
    match updateFirstConfig id ⟨id, count, requestRate, rampUpTime, delay, behavior⟩
        s.clientsConfigs with
    | some l => (Option.none, { s with clientsConfigs := l })
    | Option.none => (some ("Client group with id '" ++ id ++ "' not found"), s)

/-- Embedding of Simulation.AddClientsConfig: error while running, otherwise
append the new config. -/
def AddClientsConfig (s : SimulationState) (id : String) (count requestRate rampUpTime
    delay : Int) (behavior : String) : Option String × SimulationState :=
  if s.running then
    (some "Simulation: Error: Cannot add clients configs while running", s)
  else
    (Option.none, { s with clientsConfigs :=
      s.clientsConfigs ++ [⟨id, count, requestRate, rampUpTime, delay, behavior⟩] })

/-- Embedding of Simulation.DeleteClientConfigById: error while running, error
on unknown id, otherwise remove the matching config. -/
def DeleteClientConfigById (s : SimulationState) (id : String) :
    Option String × SimulationState :=
  if s.running then
    (some "Simulation: Error: Cannot delete client configs while running", s)
  else
    match deleteFirstConfig id s.clientsConfigs with
    | some l => (Option.none, { s with clientsConfigs := l })
    | Option.none => (some ("Client group with id '" ++ id ++ "' not found"), s)

/-- Embedding of Simulation.ClearClientConfigs: error while running (the Go
message says "add", faithfully kept), otherwise drop every config. -/
def ClearClientConfigs (s : SimulationState) : Option String × SimulationState :=
  if s.running then
    (some "Simulation: Error: Cannot add clients configs while running", s)
  else
    (Option.none, { s with clientsConfigs := [] })

/-- Claim C8: while the simulation is running, every client-config mutation
operation returns an error and leaves the stored list of client configurations
(indeed the whole state) unchanged. -/
theorem mutations_rejected_while_running (s : SimulationState) (id behavior : String)
    (count requestRate rampUpTime delay : Int) (hrun : s.running = true) :
    ((UpdateClientConfig s id count requestRate rampUpTime delay behavior).1.isSome = true ∧
      (UpdateClientConfig s id count requestRate rampUpTime delay behavior).2 = s) ∧
    ((AddClientsConfig s id count requestRate rampUpTime delay behavior).1.isSome = true ∧
      (AddClientsConfig s id count requestRate rampUpTime delay behavior).2 = s) ∧
    ((DeleteClientConfigById s id).1.isSome = true ∧
      (DeleteClientConfigById s id).2 = s) ∧
    ((ClearClientConfigs s).1.isSome = true ∧ (ClearClientConfigs s).2 = s) := by
  simp [UpdateClientConfig, AddClientsConfig, DeleteClientConfigById, ClearClientConfigs,
    hrun]

/-- Witness for C8 at a concrete running state holding one config. -/
theorem mutations_rejected_while_running_witness :
    (UpdateClientConfig ⟨true, [⟨"g1", 10, 100, 0, 0, ""⟩]⟩ "g1" 5 50 0 0 "x").2
        = ⟨true, [⟨"g1", 10, 100, 0, 0, ""⟩]⟩ ∧
      (ClearClientConfigs ⟨true, [⟨"g1", 10, 100, 0, 0, ""⟩]⟩).1.isSome = true :=
  ⟨(mutations_rejected_while_running ⟨true, [⟨"g1", 10, 100, 0, 0, ""⟩]⟩ "g1" "x"
      5 50 0 0 rfl).1.2,
   (mutations_rejected_while_running ⟨true, [⟨"g1", 10, 100, 0, 0, ""⟩]⟩ "g1" "x"
      5 50 0 0 rfl).2.2.2.1⟩
